import Mathlib

/-!
Verification of the quanta-rag ingestion-and-indexing pipeline.

This file gives a shallow embedding of the pipeline's source
(`src/ingestion/ingest.py`, `src/ingestion/parser.py`,
`dags/tasks/ingestion_tasks.py`, `src/services/opensearch/client.py`,
`src/database/models.py`) and settles the specification claims about it.

External effects (HTTP responses, the parsing backend, the search engine,
the relational store) are modelled by explicit oracle/environment values,
so every embedded operation is a total, executable Lean function of the
code plus its environment.
-/

namespace QuantaRag

/-! ## Retrying Fetcher: `IngestionEngine._download_pdf` (ingest.py 104-151)

The HTTP GET either returns a status with a body, times out, or fails to
connect.  The embedding records the boolean result, what (if anything) was
written to `pdf_path`, whether the network was touched, and the status
code recorded in the failure log line (`logger.warning(... HTTP {status})`). -/

inductive HttpOutcome where
  | ok (status : Nat) (content : List Nat)
  | timeoutErr
  | connError
deriving DecidableEq, Repr

structure FetchResult where
  success : Bool
  written : Option (List Nat)
  networkUsed : Bool
  loggedFailStatus : Option Nat
deriving DecidableEq, Repr

/-- `IngestionEngine._download_pdf`: skip with success if the file already
exists; otherwise GET the url, write the body and succeed only on status
200, return `False` on any other status (logging the status) and on
timeout / connection error (all exceptions are caught inside). -/
def download_pdf (fileExists : Bool) (http : HttpOutcome) : FetchResult :=
  if fileExists then
    { success := true, written := none, networkUsed := false, loggedFailStatus := none }
  else
    match http with
    | .ok status content =>
        if status = 200 then
          { success := true, written := some content, networkUsed := true,
            loggedFailStatus := none }
        else
          { success := false, written := none, networkUsed := true,
            loggedFailStatus := some status }
    | .timeoutErr =>
        { success := false, written := none, networkUsed := true, loggedFailStatus := none }
    | .connError =>
        { success := false, written := none, networkUsed := true, loggedFailStatus := none }

/-! ## Bounded Pipeline Executor: `IngestionEngine._ingest_paper` and
`ingest_papers_async` (ingest.py 153-225)

Per paper, the metadata extraction/upsert step may raise (modelled by
`metadataError`); the download step never raises (`download_pdf` above).
`_ingest_paper` catches any exception and turns it into a
`success = False` outcome; otherwise it reports `success = True` together
with the boolean returned by `_download_pdf`. -/

structure PaperEnv where
  metadataError : Option String
  fileExists : Bool
  http : HttpOutcome
deriving DecidableEq, Repr

structure IngestResult where
  paper_id : String
  success : Bool
  pdf_downloaded : Option Bool
  error : Option String
deriving DecidableEq, Repr

/-- `IngestionEngine._ingest_paper`: metadata upsert then PDF download;
the outcome dict has `success = False` only when an exception was raised
(and caught), and otherwise carries the download result in the separate
`pdf_downloaded` field. -/
def ingest_paper (env : PaperEnv) (paperId : String) : IngestResult :=
  match env.metadataError with
  | some e => { paper_id := paperId, success := false, pdf_downloaded := none, error := some e }
  | none =>
      { paper_id := paperId, success := true,
        pdf_downloaded := some (download_pdf env.fileExists env.http).success, error := none }

/-- `IngestionEngine.ingest_papers_async`: gather of `_ingest_paper` over
the batch, outcomes in input order. -/
def ingest_papers_async (envs : List PaperEnv) (ids : List String) : List IngestResult :=
  List.zipWith ingest_paper envs ids

/-- The summary line `sum(1 for r in results if r['success'])`. -/
def successfulCount (rs : List IngestResult) : Nat :=
  (rs.filter (fun r => r.success)).length

theorem ingest_paper_success_eq (env : PaperEnv) (pid : String) :
    (ingest_paper env pid).success = env.metadataError.isNone := by
  cases h : env.metadataError <;> simp [ingest_paper, h]

theorem ingest_papers_async_get (envs : List PaperEnv) (ids : List String) (i : Nat)
    (env : PaperEnv) (pid : String)
    (h1 : envs[i]? = some env) (h2 : ids[i]? = some pid) :
    (ingest_papers_async envs ids)[i]? = some (ingest_paper env pid) := by
  induction envs generalizing i ids with
  | nil => simp at h1
  | cons e es ih =>
      cases ids with
      | nil => simp at h2
      | cons x xs =>
          cases i with
          | zero =>
              simp at h1 h2
              simp [ingest_papers_async, h1, h2]
          | succ j =>
              simp at h1 h2
              simpa [ingest_papers_async] using ih xs j h1 h2

theorem successfulCount_eq_metadata_ok (envs : List PaperEnv) (ids : List String)
    (h : envs.length = ids.length) :
    successfulCount (ingest_papers_async envs ids)
      = (envs.filter (fun e => e.metadataError.isNone)).length := by
  induction envs generalizing ids with
  | nil => simp [ingest_papers_async, successfulCount]
  | cons e es ih =>
      cases ids with
      | nil => simp at h
      | cons x xs =>
          have hlen : es.length = xs.length := by simpa using h
          have hrec := ih xs hlen
          by_cases hm : e.metadataError.isNone
          · simp [ingest_papers_async, successfulCount, List.filter,
              ingest_paper_success_eq, hm] at hrec ⊢
            simpa [successfulCount, ingest_papers_async] using hrec
          · simp [ingest_papers_async, successfulCount, List.filter,
              ingest_paper_success_eq, hm] at hrec ⊢
            simpa [successfulCount, ingest_papers_async] using hrec

/-! Concrete batch of five descriptors where item 3's fetch always fails
with HTTP 500 while every other item downloads fine. -/

def c1Envs : List PaperEnv :=
  [{ metadataError := none, fileExists := false, http := .ok 200 [1] },
   { metadataError := none, fileExists := false, http := .ok 200 [2] },
   { metadataError := none, fileExists := false, http := .ok 500 [] },
   { metadataError := none, fileExists := false, http := .ok 200 [4] },
   { metadataError := none, fileExists := false, http := .ok 200 [5] }]

def c1Ids : List String := ["p1", "p2", "p3", "p4", "p5"]

/-- C1 counterexample: in a batch of 5 where item 3's payload fetch
permanently fails (HTTP 500), the code reports item 3 with
`success = true` (the fetch failure only shows in `pdf_downloaded`), and
the batch summary counts 5 successes, not 4 successes and 1 failure as
the claim states. -/
theorem ingest_fetch_failure_not_failed_outcome :
    (download_pdf false (.ok 500 [])).success = false ∧
    ((ingest_papers_async c1Envs c1Ids).map (fun r => r.success))
      = [true, true, true, true, true] ∧
    successfulCount (ingest_papers_async c1Envs c1Ids) = 5 ∧
    ¬ successfulCount (ingest_papers_async c1Envs c1Ids) = 4 := by
  refine ⟨by decide, by decide, by decide, by decide⟩

/-- C1 amended: a permanently failing fetch is isolated — sibling outcomes
are untouched and each outcome is a function of its own descriptor's
environment — but the failure is recorded as `pdf_downloaded = false`
with `success = true`, and the batch summary counts as successful exactly
the items whose metadata step did not raise (so a fetch-only failure is
still counted as a success). -/
theorem ingest_outcomes_amended (envs : List PaperEnv) (ids : List String) :
    (∀ (i : Nat) env pid, envs[i]? = some env → ids[i]? = some pid →
        (ingest_papers_async envs ids)[i]? = some (ingest_paper env pid)) ∧
    (∀ env pid, env.metadataError = none →
        (ingest_paper env pid).success = true ∧
        (ingest_paper env pid).pdf_downloaded
          = some (download_pdf env.fileExists env.http).success) ∧
    (envs.length = ids.length →
        successfulCount (ingest_papers_async envs ids)
          = (envs.filter (fun e => e.metadataError.isNone)).length) := by
  refine ⟨?_, ?_, ?_⟩
  · intro i env pid h1 h2
    exact ingest_papers_async_get envs ids i env pid h1 h2
  · intro env pid hm
    constructor
    · simp [ingest_paper_success_eq, hm]
    · simp [ingest_paper, hm]
  · intro h
    exact successfulCount_eq_metadata_ok envs ids h

/-- C1 amended, witness: the theorem applied to the concrete 5-item batch
with item 3 failing. -/
theorem ingest_outcomes_amended_witness :
    (ingest_papers_async c1Envs c1Ids)[2]?
      = some (ingest_paper
          { metadataError := none, fileExists := false, http := .ok 500 [] } "p3") ∧
    successfulCount (ingest_papers_async c1Envs c1Ids)
      = (c1Envs.filter (fun e => e.metadataError.isNone)).length := by
  constructor
  · exact (ingest_outcomes_amended c1Envs c1Ids).1 2 _ _ (by decide) (by decide)
  · exact (ingest_outcomes_amended c1Envs c1Ids).2.2 (by decide)

/-- C9: on a cache miss, any response with a non-2xx status makes
`_download_pdf` return `False` with the status recorded in the failure
log and nothing written; bytes are written to the destination only for a
2xx response (in fact exactly 200); and if the destination file already
exists the call succeeds without any network access.  The embedding is a
total function, so no exception escapes on any of these paths. -/
theorem download_pdf_non2xx_failed (fileExists : Bool) (http : HttpOutcome) :
    (∀ status content, fileExists = false → http = .ok status content →
        ¬(200 ≤ status ∧ status < 300) →
        (download_pdf fileExists http).success = false ∧
        (download_pdf fileExists http).loggedFailStatus = some status ∧
        (download_pdf fileExists http).written = none) ∧
    (∀ content, (download_pdf fileExists http).written = some content →
        ∃ status, http = .ok status content ∧ 200 ≤ status ∧ status < 300) ∧
    (fileExists = true →
        (download_pdf fileExists http).success = true ∧
        (download_pdf fileExists http).networkUsed = false) := by
  refine ⟨?_, ?_, ?_⟩
  · intro status content hfe hh hstat
    subst hfe; subst hh
    have h200 : ¬ status = 200 := by omega
    simp [download_pdf, h200]
  · intro content hw
    cases fileExists with
    | true => simp [download_pdf] at hw
    | false =>
        cases http with
        | ok status body =>
            by_cases h200 : status = 200
            · subst h200
              simp [download_pdf] at hw
              exact ⟨200, by simp [hw], by omega, by omega⟩
            · simp [download_pdf, h200] at hw
        | timeoutErr => simp [download_pdf] at hw
        | connError => simp [download_pdf] at hw
  · intro hfe
    subst hfe
    simp [download_pdf]

/-- C9 witness: the theorem applied at a 500 response on a cache miss,
at a 200 response (the only case that writes), and at a cache hit. -/
theorem download_pdf_non2xx_failed_witness :
    ((download_pdf false (.ok 500 [7])).success = false ∧
      (download_pdf false (.ok 500 [7])).loggedFailStatus = some 500 ∧
      (download_pdf false (.ok 500 [7])).written = none) ∧
    (∃ status, (HttpOutcome.ok 200 [7] : HttpOutcome) = .ok status [7] ∧
        200 ≤ status ∧ status < 300) ∧
    ((download_pdf true .timeoutErr).success = true ∧
      (download_pdf true .timeoutErr).networkUsed = false) := by
  refine ⟨?_, ?_, ?_⟩
  · exact (download_pdf_non2xx_failed false (.ok 500 [7])).1 500 [7] rfl rfl (by omega)
  · exact (download_pdf_non2xx_failed false (.ok 200 [7])).2.1 [7] (by decide)
  · exact (download_pdf_non2xx_failed true .timeoutErr).2.2 rfl

/-! ## Structure Extractor: `DoclingParser.parse_pdf` (parser.py 29-164)

The docling backend may be unavailable (`converterAvailable = false`,
i.e. the import failed), its conversion may throw
(`doclingOutcome = none`), and the pypdf fallback may throw
(`fallbackPages = none`).  Fallible sub-operations are `Except`-valued;
`parse_pdf` shows where each exception is caught. -/

structure DocSection where
  type : String
  text : String
  level : Nat
deriving DecidableEq, Repr

structure ParseMeta where
  parser : String
  error : Option String
  page_count : Option Nat
  element_count : Option Nat
deriving DecidableEq, Repr

structure ParsedContent where
  full_text : String
  sections : List DocSection
  metadata : ParseMeta
deriving DecidableEq, Repr

structure DocItem where
  text : String
  label : String
  level : Nat
deriving DecidableEq, Repr

structure DoclingDoc where
  items : List DocItem
  pageCount : Nat
deriving DecidableEq, Repr

structure ParseEnv where
  fileExists : Bool
  converterAvailable : Bool
  doclingOutcome : Option DoclingDoc
  fallbackPages : Option (List String)
deriving DecidableEq, Repr

/-- `DoclingParser._empty_result`. -/
def empty_result : ParsedContent :=
  { full_text := "", sections := [],
    metadata := { parser := "none", error := some "Failed to parse PDF",
                  page_count := none, element_count := none } }

def headingLabels : List String := ["title", "section_header", "heading"]

/-- `DoclingParser._parse_with_docling`: headings become sections, every
item's text joins the full text. -/
def parse_with_docling (d : DoclingDoc) : ParsedContent :=
  { full_text := String.intercalate "\n\n" (d.items.map (fun it => it.text)),
    sections := d.items.filterMap (fun it =>
      if headingLabels.contains it.label then
        some { type := it.label, text := it.text, level := it.level }
      else none),
    metadata := { parser := "docling", error := none,
                  page_count := some d.pageCount,
                  element_count := some d.items.length } }

/-- The body of `DoclingParser._parse_with_fallback`: page texts joined,
empty pages dropped (`if text:`), no sections. -/
def parse_with_fallback (pages : List String) : ParsedContent :=
  { full_text := String.intercalate "\n\n" (pages.filter (fun t => !(t == ""))),
    sections := [],
    metadata := { parser := "pypdf_fallback", error := none,
                  page_count := some pages.length, element_count := none } }

/-- The docling conversion call, which may throw. -/
def docling_convert (env : ParseEnv) : Except String ParsedContent :=
  match env.doclingOutcome with
  | some d => .ok (parse_with_docling d)
  | none => .error "docling conversion failed"

/-- The pypdf extraction body, which may throw. -/
def pypdf_extract (env : ParseEnv) : Except String ParsedContent :=
  match env.fallbackPages with
  | some pages => .ok (parse_with_fallback pages)
  | none => .error "pypdf extraction failed"

/-- `DoclingParser._parse_with_fallback`: its body is wrapped in
try/except, so a pypdf failure resolves to `_empty_result()` instead of
propagating. -/
def parse_with_fallback_guarded (env : ParseEnv) : Except String ParsedContent :=
  match pypdf_extract env with
  | .ok r => .ok r
  | .error _ => .ok empty_result

/-- `DoclingParser.parse_pdf`: missing file yields `_empty_result()`;
a docling failure is caught and falls through to the fallback; an
unavailable converter goes straight to the fallback. -/
def parse_pdf (env : ParseEnv) : Except String ParsedContent :=
  if env.fileExists = false then .ok empty_result
  else if env.converterAvailable then
    match docling_convert env with
    | .ok r => .ok r
    | .error _ => parse_with_fallback_guarded env
  else parse_with_fallback_guarded env

/-- C3: `parse_pdf` never propagates an exception (it is `.ok` on every
environment), and whenever the payload is missing or both the primary and
fallback extraction paths fail, the result is the degraded value with
empty `full_text`, empty `sections`, the metadata error field set, and
parser `"none"`. -/
theorem parse_pdf_no_raise_degraded (env : ParseEnv) :
    (∀ e, parse_pdf env ≠ .error e) ∧
    ((env.fileExists = false ∨
        ((env.converterAvailable = false ∨ env.doclingOutcome = none) ∧
          env.fallbackPages = none)) →
      parse_pdf env = .ok empty_result ∧
      empty_result.full_text = "" ∧
      empty_result.sections = [] ∧
      empty_result.metadata.error = some "Failed to parse PDF" ∧
      empty_result.metadata.parser = "none") := by
  constructor
  · rcases env with ⟨fe, ca, dl, fb⟩
    intro e
    cases fe <;> cases ca <;> cases dl <;> cases fb <;>
      simp [parse_pdf, docling_convert, parse_with_fallback_guarded, pypdf_extract]
  · intro h
    refine ⟨?_, rfl, rfl, rfl, rfl⟩
    rcases env with ⟨fe, ca, dl, fb⟩
    rcases h with hfe | ⟨hdl, hfb⟩
    · simp only at hfe
      subst hfe
      simp [parse_pdf]
    · simp only at hfb
      subst hfb
      rcases hdl with hca | hdl
      · simp only at hca
        subst hca
        cases fe <;> simp [parse_pdf, parse_with_fallback_guarded, pypdf_extract]
      · simp only at hdl
        subst hdl
        cases fe <;> cases ca <;>
          simp [parse_pdf, docling_convert, parse_with_fallback_guarded, pypdf_extract]

/-- C3 witness: file present but docling conversion and pypdf both fail. -/
theorem parse_pdf_no_raise_degraded_witness :
    parse_pdf { fileExists := true, converterAvailable := true,
                doclingOutcome := none, fallbackPages := none } = .ok empty_result :=
  ((parse_pdf_no_raise_degraded
      { fileExists := true, converterAvailable := true,
        doclingOutcome := none, fallbackPages := none }).2
    (Or.inr ⟨Or.inr rfl, rfl⟩)).1

/-! ## Idempotency Filter: `check_idempotency_task` (ingestion_tasks.py 93-135)

The durable store is modelled by the list of `arxiv_id`s it holds; the
query `session.query(Paper).filter_by(arxiv_id=...).first()` is a
membership test.  The task returns the filtered batch together with the
(unchanged) store, making its read-only nature explicit. -/

structure Descriptor where
  arxiv_id : String
  title : String
deriving DecidableEq, Repr

/-- The accumulation loop over the batch: descriptors already present are
skipped, new ones are appended in input order. -/
def checkIdempotencyLoop (store : List String) (acc : List Descriptor) :
    List Descriptor → List Descriptor
  | [] => acc
  | p :: ps =>
      if store.contains p.arxiv_id then checkIdempotencyLoop store acc ps
      else checkIdempotencyLoop store (acc ++ [p]) ps

/-- `check_idempotency_task`: `if not papers: return []` covers both the
absent (`None`) and the empty batch; otherwise the loop above runs. -/
def check_idempotency_task (store : List String) (papers : Option (List Descriptor)) :
    List Descriptor × List String :=
  match papers with
  | none => ([], store)
  | some ps => if ps.isEmpty then ([], store) else (checkIdempotencyLoop store [] ps, store)

theorem checkIdempotencyLoop_eq (store : List String) (acc ps : List Descriptor) :
    checkIdempotencyLoop store acc ps
      = acc ++ ps.filter (fun p => !(store.contains p.arxiv_id)) := by
  induction ps generalizing acc with
  | nil => simp [checkIdempotencyLoop]
  | cons p ps ih =>
      by_cases hc : p.arxiv_id ∈ store
      · simp [checkIdempotencyLoop, hc, ih, List.filter_cons]
      · simp [checkIdempotencyLoop, hc, ih, List.filter_cons]

/-- C6: the Idempotency Filter returns exactly the input-order subsequence
of descriptors whose `arxiv_id` has no record in the store (a `filter`,
hence a sublist of the input), returns the empty sequence for an absent
or empty input, leaves the store untouched (read-only), and a second run
on the store returned by the first yields the same subset. -/
theorem check_idempotency_spec (store : List String) (ps : List Descriptor) :
    (check_idempotency_task store (some ps)).1
      = ps.filter (fun p => !(store.contains p.arxiv_id)) ∧
    List.Sublist (check_idempotency_task store (some ps)).1 ps ∧
    (check_idempotency_task store none).1 = [] ∧
    (check_idempotency_task store (some ([] : List Descriptor))).1 = [] ∧
    (check_idempotency_task store (some ps)).2 = store ∧
    (check_idempotency_task (check_idempotency_task store (some ps)).2 (some ps)).1
      = (check_idempotency_task store (some ps)).1 := by
  have hmain : (check_idempotency_task store (some ps)).1
      = ps.filter (fun p => !(store.contains p.arxiv_id)) := by
    cases ps with
    | nil => simp [check_idempotency_task]
    | cons p ps => simp [check_idempotency_task, checkIdempotencyLoop_eq]
  have hstore : (check_idempotency_task store (some ps)).2 = store := by
    cases ps <;> simp [check_idempotency_task]
  refine ⟨hmain, ?_, rfl, by simp [check_idempotency_task], hstore, ?_⟩
  · rw [hmain]
    exact List.filter_sublist ps
  · rw [hstore]

/-! ## Self-Healing Search Index: `QuantaSearchClient` (client.py 76-256)

The engine's state is a map from index name to the index (its schema and
its documents, keyed by the engine-level document id).  The client calls
that can raise (`indices.exists`, `indices.create`, `index`, `search`,
`count`) are modelled by boolean raise-flags in `ClientEnv`; the
engine-level `index(id=...)` call stores under the given id, overwriting
any document with the same id. -/

/-- `index_config.py ARXIV_PAPERS_MAPPING`, the canonical schema. -/
structure IndexConfig where
  number_of_shards : Nat
  number_of_replicas : Nat
  arxiv_id_type : String
  title_type : String
  full_text_type : String
  summary_type : String
  published_date_type : String
  created_at_type : String
  authors_type : String
  categories_type : String
deriving DecidableEq, Repr

/-- `index_config.get_index_config`. -/
def get_index_config : IndexConfig :=
  { number_of_shards := 1, number_of_replicas := 0,
    arxiv_id_type := "keyword", title_type := "text", full_text_type := "text",
    summary_type := "text", published_date_type := "date", created_at_type := "date",
    authors_type := "text", categories_type := "keyword" }

/-- `index_config.get_index_name`. -/
def get_index_name : String := "arxiv-papers"

/-- The document shape built by `upsert_paper` before indexing. -/
structure SearchDoc where
  arxiv_id : String
  title : String
  full_text : String
  summary : String
  published_date : Option String
  created_at : Option String
  authors : List String
  categories : List String
deriving DecidableEq, Repr

structure SIndex where
  schema : IndexConfig
  docs : List (String × SearchDoc)
deriving DecidableEq, Repr

def EngineState : Type := String → Option SIndex

structure ClientEnv where
  existsRaises : Bool
  createRaises : Bool
  opRaises : Bool
deriving DecidableEq, Repr

/-- `indices.create(index, body=get_index_config())`: a fresh index with
the canonical schema and no documents. -/
def create_index (s : EngineState) (name : String) : EngineState :=
  fun n => if n = name then some { schema := get_index_config, docs := [] } else s n

/-- `QuantaSearchClient._ensure_index`: returns `True` if the index
exists or was created; any exception from the exists-check or the create
call is caught and turned into `False`. -/
def ensure_index (env : ClientEnv) (name : String) (s : EngineState) : Bool × EngineState :=
  if env.existsRaises then (false, s)
  else
    match s name with
    | some _ => (true, s)
    | none => if env.createRaises then (false, s) else (true, create_index s name)

/-- The engine-level keyed write behind `client.index(index, id, body)`:
an existing document with the same id is overwritten, otherwise the
document is appended. -/
def putDoc (docs : List (String × SearchDoc)) (id : String) (d : SearchDoc) :
    List (String × SearchDoc) :=
  if docs.any (fun p => p.1 == id) then
    docs.map (fun p => if p.1 == id then (id, d) else p)
  else docs ++ [(id, d)]

def write_doc (s : EngineState) (name id : String) (d : SearchDoc) : EngineState :=
  fun n =>
    if n = name then
      (s n).map (fun idx => { schema := idx.schema, docs := putDoc idx.docs id d })
    else s n

def countKey (docs : List (String × SearchDoc)) (id : String) : Nat :=
  (docs.filter (fun p => p.1 == id)).length

/-- Input dictionary of `upsert_paper` (keys may be absent). -/
structure PaperData where
  arxiv_id : Option String
  title : Option String
  full_text : Option String
  summary : Option String
  published_date : Option String
  created_at : Option String
  authors : Option (List String)
  categories : Option (List String)
deriving DecidableEq, Repr

/-- The `document` dict built in `upsert_paper` (`.get` with defaults). -/
def projectDoc (p : PaperData) (id : String) : SearchDoc :=
  { arxiv_id := id,
    title := p.title.getD "",
    full_text := p.full_text.getD "",
    summary := p.summary.getD "",
    published_date := p.published_date,
    created_at := p.created_at,
    authors := p.authors.getD [],
    categories := p.categories.getD [] }

/-- `QuantaSearchClient.upsert_paper`: ensure the index (raise on
failure), require `arxiv_id`, index with `arxiv_id` as the document id;
every raise is caught by the surrounding try/except and becomes
`False`. -/
def upsert_paper (env : ClientEnv) (paper : PaperData) (name : String) (s : EngineState) :
    Bool × EngineState :=
  let es := ensure_index env name s
  if !es.1 then (false, es.2)
  else
    match paper.arxiv_id with
    | none => (false, es.2)
    | some id =>
        if env.opRaises then (false, es.2)
        else (true, write_doc es.2 name id (projectDoc paper id))

/-- Substring occurrence used to model the engine's text match. -/
def strContains (s q : String) : Bool := decide (2 ≤ (s.splitOn q).length)

def getField (d : SearchDoc) : String → String
  | "full_text" => d.full_text
  | "title" => d.title
  | "summary" => d.summary
  | _ => ""

/-- The engine side of the BM25 `multi_match` query with OR semantics:
documents matching the query in any of the given fields, capped at the
requested size, projected to the `_source` fields. -/
structure SearchHit where
  arxiv_id : String
  title : String
  summary : String
  published_date : Option String
  authors : List String
  score : Nat
deriving DecidableEq, Repr

def bm25Hits (q : String) (flds : List String) (lim : Nat)
    (docs : List (String × SearchDoc)) : List SearchHit :=
  ((docs.filter (fun p => flds.any (fun f => strContains (getField p.2 f) q))).take lim).map
    (fun p => { arxiv_id := p.2.arxiv_id, title := p.2.title, summary := p.2.summary,
                published_date := p.2.published_date, authors := p.2.authors, score := 1 })

def defaultFields : List String := ["full_text", "title", "summary"]

/-- `QuantaSearchClient.search`: ensure the index (returning `[]` when it
cannot be ensured), run the multi-match query, return `[]` if the engine
call raises. -/
def search (env : ClientEnv) (q : String) (name : String) (lim : Nat) (s : EngineState) :
    List SearchHit × EngineState :=
  let es := ensure_index env name s
  if !es.1 then ([], es.2)
  else if env.opRaises then ([], es.2)
  else
    match es.2 name with
    | none => ([], es.2)
    | some idx => (bm25Hits q defaultFields lim idx.docs, es.2)

/-- `QuantaSearchClient.get_paper_count`: ensure the index (returning 0
when it cannot be ensured), return the document count, 0 if the engine
call raises. -/
def get_paper_count (env : ClientEnv) (name : String) (s : EngineState) :
    Nat × EngineState :=
  let es := ensure_index env name s
  if !es.1 then (0, es.2)
  else if env.opRaises then (0, es.2)
  else
    match es.2 name with
    | none => (0, es.2)
    | some idx => (idx.docs.length, es.2)

/-- C4: calling `search` or `count` on an index name that does not yet
exist creates it with the canonical schema as a side effect and returns
an empty list / zero, and when provisioning itself fails (the exists
check or the create call raises) `search` still returns `[]` and `count`
still returns 0. -/
theorem search_count_self_healing (env : ClientEnv) (name q : String) (lim : Nat)
    (s : EngineState) :
    (s name = none → env.existsRaises = false → env.createRaises = false →
      env.opRaises = false →
      (search env q name lim s).1 = [] ∧
      (search env q name lim s).2 name = some { schema := get_index_config, docs := [] } ∧
      (get_paper_count env name s).1 = 0 ∧
      (get_paper_count env name s).2 name
        = some { schema := get_index_config, docs := [] }) ∧
    (env.existsRaises = true →
      (search env q name lim s).1 = [] ∧ (get_paper_count env name s).1 = 0) ∧
    (s name = none → env.existsRaises = false → env.createRaises = true →
      (search env q name lim s).1 = [] ∧ (get_paper_count env name s).1 = 0) := by
  refine ⟨?_, ?_, ?_⟩
  · intro hn h1 h2 h3
    simp [search, get_paper_count, ensure_index, h1, h2, h3, hn, create_index, bm25Hits]
  · intro h1
    simp [search, get_paper_count, ensure_index, h1]
  · intro hn h1 h2
    simp [search, get_paper_count, ensure_index, h1, h2, hn]

/-- C4 witness: the theorem applied to the empty engine and the canonical
index name, with no raise anywhere, and to an engine whose exists-check
always raises. -/
theorem search_count_self_healing_witness :
    ((search { existsRaises := false, createRaises := false, opRaises := false }
        "quantum computing" get_index_name 5 (fun _ => none)).1 = [] ∧
      (search { existsRaises := false, createRaises := false, opRaises := false }
        "quantum computing" get_index_name 5 (fun _ => none)).2 get_index_name
        = some { schema := get_index_config, docs := [] } ∧
      (get_paper_count { existsRaises := false, createRaises := false, opRaises := false }
        get_index_name (fun _ => none)).1 = 0 ∧
      (get_paper_count { existsRaises := false, createRaises := false, opRaises := false }
        get_index_name (fun _ => none)).2 get_index_name
        = some { schema := get_index_config, docs := [] }) ∧
    ((search { existsRaises := true, createRaises := false, opRaises := false }
        "quantum computing" get_index_name 5 (fun _ => none)).1 = [] ∧
      (get_paper_count { existsRaises := true, createRaises := false, opRaises := false }
        get_index_name (fun _ => none)).1 = 0) := by
  constructor
  · exact (search_count_self_healing
      { existsRaises := false, createRaises := false, opRaises := false }
      get_index_name "quantum computing" 5 (fun _ => none)).1 rfl rfl rfl rfl
  · exact (search_count_self_healing
      { existsRaises := true, createRaises := false, opRaises := false }
      get_index_name "quantum computing" 5 (fun _ => none)).2.1 rfl

theorem list_map_id_of_mem {α : Type} (l : List α) (f : α → α)
    (h : ∀ a ∈ l, f a = a) : l.map f = l := by
  induction l with
  | nil => rfl
  | cons a as ih =>
      simp only [List.map_cons]
      rw [h a (by simp), ih (fun b hb => h b (by simp [hb]))]

theorem putDoc_mem (docs : List (String × SearchDoc)) (id : String) (d : SearchDoc) :
    (id, d) ∈ putDoc docs id d := by
  unfold putDoc
  by_cases h : docs.any (fun p => p.1 == id)
  · simp only [h, if_true]
    obtain ⟨p, hp, hpid⟩ := List.any_eq_true.mp h
    refine List.mem_map.mpr ⟨p, hp, ?_⟩
    simp [hpid]
  · simp [h]

theorem putDoc_key_eq (docs : List (String × SearchDoc)) (id : String) (d : SearchDoc) :
    ∀ p ∈ putDoc docs id d, p.1 = id → p = (id, d) := by
  intro p hp hpid
  unfold putDoc at hp
  by_cases h : docs.any (fun q => q.1 == id)
  · simp only [h, if_true] at hp
    obtain ⟨q, hq, hqe⟩ := List.mem_map.mp hp
    by_cases hqi : q.1 = id
    · simp [hqi] at hqe
      exact hqe.symm
    · simp [hqi] at hqe
      rw [← hqe] at hpid
      exact absurd hpid hqi
  · rw [Bool.not_eq_true] at h
    simp only [h, Bool.false_eq_true, if_false] at hp
    rcases List.mem_append.mp hp with hd | hl
    · have hcontra := (List.any_eq_false.mp h) p hd
      simp [hpid] at hcontra
    · simpa using hl

theorem putDoc_idem (docs : List (String × SearchDoc)) (id : String) (d : SearchDoc) :
    putDoc (putDoc docs id d) id d = putDoc docs id d := by
  have hany : (putDoc docs id d).any (fun p => p.1 == id) = true :=
    List.any_eq_true.mpr ⟨(id, d), putDoc_mem docs id d, by simp⟩
  conv_lhs => rw [putDoc]
  rw [if_pos hany]
  refine list_map_id_of_mem _ _ (fun p hp => ?_)
  by_cases hpi : p.1 = id
  · have hpd := putDoc_key_eq docs id d p hp hpi
    rw [hpd]
    simp
  · simp [hpi]

theorem countKey_eq_zero (docs : List (String × SearchDoc)) (id : String)
    (h : id ∉ docs.map Prod.fst) : countKey docs id = 0 := by
  unfold countKey
  rw [List.filter_eq_nil_iff.mpr (fun p hp => by
    simp only [beq_iff_eq]
    intro hpe
    exact h (List.mem_map.mpr ⟨p, hp, hpe⟩))]
  rfl

theorem countKey_eq_one_of_any (docs : List (String × SearchDoc)) (id : String)
    (hany : docs.any (fun p => p.1 == id) = true)
    (hnd : (docs.map Prod.fst).Nodup) : countKey docs id = 1 := by
  induction docs with
  | nil => simp at hany
  | cons q qs ih =>
      rw [List.map_cons] at hnd
      have hnd2 := List.nodup_cons.mp hnd
      by_cases hq : q.1 = id
      · have hz : countKey qs id = 0 := countKey_eq_zero qs id (hq ▸ hnd2.1)
        unfold countKey at hz ⊢
        simp [List.filter_cons, hq, hz]
      · have hany2 : qs.any (fun p => p.1 == id) = true := by
          rcases List.any_eq_true.mp hany with ⟨p, hp, hpe⟩
          simp only [beq_iff_eq] at hpe
          rcases List.mem_cons.mp hp with rfl | hmem
          · exact absurd hpe hq
          · exact List.any_eq_true.mpr ⟨p, hmem, by simp [hpe]⟩
        have hrec := ih hany2 hnd2.2
        unfold countKey at hrec ⊢
        simp [List.filter_cons, hq, hrec]

theorem countKey_map_put (docs : List (String × SearchDoc)) (id : String) (d : SearchDoc) :
    countKey (docs.map (fun p => if p.1 == id then (id, d) else p)) id
      = countKey docs id := by
  unfold countKey
  rw [List.filter_map, List.length_map]
  congr 1
  apply List.filter_congr
  intro p hp
  by_cases hq : p.1 = id
  · simp [Function.comp, hq]
  · simp [Function.comp, hq]

theorem countKey_putDoc (docs : List (String × SearchDoc)) (id : String) (d : SearchDoc)
    (hnd : (docs.map Prod.fst).Nodup) : countKey (putDoc docs id d) id = 1 := by
  unfold putDoc
  by_cases h : docs.any (fun p => p.1 == id)
  · rw [if_pos h, countKey_map_put]
    exact countKey_eq_one_of_any docs id h hnd
  · rw [if_neg h]
    have hanyf : docs.any (fun p => p.1 == id) = false := by
      cases hv : docs.any (fun p => p.1 == id)
      · rfl
      · exact absurd hv h
    have hz : countKey docs id = 0 := by
      refine countKey_eq_zero docs id (fun hmem => ?_)
      rcases List.mem_map.mp hmem with ⟨p, hp, hpe⟩
      have hcontra := (List.any_eq_false.mp hanyf) p hp
      simp [hpe] at hcontra
    unfold countKey at hz ⊢
    rw [List.filter_append, List.length_append, hz]
    simp

theorem write_doc_at (s : EngineState) (name id : String) (d : SearchDoc) :
    (write_doc s name id d) name
      = (s name).map (fun idx => { schema := idx.schema, docs := putDoc idx.docs id d }) := by
  simp [write_doc]

theorem write_doc_idem (s : EngineState) (name id : String) (d : SearchDoc) :
    write_doc (write_doc s name id d) name id d = write_doc s name id d := by
  funext n
  by_cases hn : n = name
  · subst hn
    simp only [write_doc, if_pos rfl, Option.map_map]
    cases hs : s n with
    | none => rfl
    | some idx => simp [Function.comp, putDoc_idem]
  · simp [write_doc, hn]

theorem ensure_index_ok (env : ClientEnv) (name : String) (s : EngineState)
    (h1 : env.existsRaises = false) (h2 : env.createRaises = false) :
    (ensure_index env name s).1 = true := by
  unfold ensure_index
  cases hs : s name <;> simp [h1, h2, hs]

theorem ensure_index_true_some (env : ClientEnv) (name : String) (s : EngineState)
    (h : (ensure_index env name s).1 = true) :
    ∃ idx, (ensure_index env name s).2 name = some idx := by
  unfold ensure_index at *
  by_cases h1 : env.existsRaises
  · simp [h1] at h
  · cases hs : s name with
    | none =>
        by_cases h2 : env.createRaises
        · simp [h1, hs, h2] at h
        · simp [h1, hs, h2, create_index]
    | some idx => simp [h1, hs]

/-- C10: `upsert_paper` never propagates an exception — it is a total
function returning a boolean — and it returns `False` when the index
cannot be ensured, when `arxiv_id` is missing, and when the engine write
raises; it returns `True` exactly when none of these failures occur, and
then the projected document is stored in the index under the
`arxiv_id` key. -/
theorem upsert_paper_no_raise (env : ClientEnv) (paper : PaperData) (name : String)
    (s : EngineState) :
    ((ensure_index env name s).1 = false → (upsert_paper env paper name s).1 = false) ∧
    (paper.arxiv_id = none → (upsert_paper env paper name s).1 = false) ∧
    (env.opRaises = true → (upsert_paper env paper name s).1 = false) ∧
    ((upsert_paper env paper name s).1 = true ↔
      ((ensure_index env name s).1 = true ∧ paper.arxiv_id.isSome = true ∧
        env.opRaises = false)) ∧
    (∀ id, paper.arxiv_id = some id → (upsert_paper env paper name s).1 = true →
      ∃ idx, (upsert_paper env paper name s).2 name = some idx ∧
        (id, projectDoc paper id) ∈ idx.docs) := by
  refine ⟨?_, ?_, ?_, ?_, ?_⟩
  · intro he
    simp [upsert_paper, he]
  · intro hid
    cases he : (ensure_index env name s).1 <;> simp [upsert_paper, he, hid]
  · intro hop
    cases he : (ensure_index env name s).1 <;>
      cases hid : paper.arxiv_id <;> simp [upsert_paper, he, hid, hop]
  · cases he : (ensure_index env name s).1 <;>
      cases hid : paper.arxiv_id <;>
        cases hop : env.opRaises <;> simp [upsert_paper, he, hid, hop]
  · intro id hid htrue
    have he : (ensure_index env name s).1 = true := by
      by_contra hne
      have : (ensure_index env name s).1 = false := by
        cases hval : (ensure_index env name s).1
        · rfl
        · exact absurd hval hne
      simp [upsert_paper, this] at htrue
    have hop : env.opRaises = false := by
      by_contra hne
      have : env.opRaises = true := by
        cases hval : env.opRaises
        · exact absurd hval hne
        · rfl
      simp [upsert_paper, he, hid, this] at htrue
    obtain ⟨idx0, hidx0⟩ := ensure_index_true_some env name s he
    refine ⟨{ schema := idx0.schema,
              docs := putDoc idx0.docs id (projectDoc paper id) }, ?_, ?_⟩
    · simp [upsert_paper, he, hid, hop, write_doc_at, hidx0]
    · exact putDoc_mem idx0.docs id (projectDoc paper id)

/-- C10 witness: the theorem applied with a missing `arxiv_id` (returns
`False`), and with everything present on the empty engine (returns `True`
with the document stored). -/
theorem upsert_paper_no_raise_witness :
    (upsert_paper { existsRaises := false, createRaises := false, opRaises := false }
      { arxiv_id := none, title := some "t", full_text := none, summary := none,
        published_date := none, created_at := none, authors := none,
        categories := none } get_index_name (fun _ => none)).1 = false ∧
    (upsert_paper { existsRaises := false, createRaises := false, opRaises := true }
      { arxiv_id := some "2401.00001", title := some "t", full_text := none,
        summary := none, published_date := none, created_at := none, authors := none,
        categories := none } get_index_name (fun _ => none)).1 = false := by
  constructor
  · exact (upsert_paper_no_raise
      { existsRaises := false, createRaises := false, opRaises := false }
      { arxiv_id := none, title := some "t", full_text := none, summary := none,
        published_date := none, created_at := none, authors := none,
        categories := none } get_index_name (fun _ => none)).2.1 rfl
  · exact (upsert_paper_no_raise
      { existsRaises := false, createRaises := false, opRaises := true }
      { arxiv_id := some "2401.00001", title := some "t", full_text := none,
        summary := none, published_date := none, created_at := none, authors := none,
        categories := none } get_index_name (fun _ => none)).2.2.1 rfl

theorem ensure_index_present (env : ClientEnv) (name : String) (s : EngineState)
    (idx : SIndex) (h1 : env.existsRaises = false) (hs : s name = some idx) :
    ensure_index env name s = (true, s) := by
  simp [ensure_index, h1, hs]

theorem upsert_paper_ok (env : ClientEnv) (paper : PaperData) (name : String)
    (s : EngineState) (id : String) (het : (ensure_index env name s).1 = true)
    (hid : paper.arxiv_id = some id) (h3 : env.opRaises = false) :
    upsert_paper env paper name s
      = (true, write_doc (ensure_index env name s).2 name id (projectDoc paper id)) := by
  simp [upsert_paper, het, hid, h3]

/-- C5: upsert is idempotent.  With the engine healthy and `arxiv_id`
present, the first upsert succeeds, a second upsert of the identical
document succeeds and leaves the engine state exactly as after the first,
the index holds exactly one document keyed by that `arxiv_id`, and
`count` returns the same value after the second call as after the
first — because `arxiv_id` is the engine-level document id, so the second
write overwrites instead of duplicating. -/
theorem upsert_idempotent (env : ClientEnv) (paper : PaperData) (name id : String)
    (s : EngineState)
    (h1 : env.existsRaises = false) (h2 : env.createRaises = false)
    (h3 : env.opRaises = false) (hid : paper.arxiv_id = some id)
    (hnd : ∀ idx, s name = some idx → (idx.docs.map Prod.fst).Nodup) :
    (upsert_paper env paper name s).1 = true ∧
    (upsert_paper env paper name (upsert_paper env paper name s).2).1 = true ∧
    (upsert_paper env paper name (upsert_paper env paper name s).2).2
      = (upsert_paper env paper name s).2 ∧
    (∃ idx, (upsert_paper env paper name s).2 name = some idx ∧
      countKey idx.docs id = 1) ∧
    (get_paper_count env name
        (upsert_paper env paper name (upsert_paper env paper name s).2).2).1
      = (get_paper_count env name (upsert_paper env paper name s).2).1 := by
  have het : (ensure_index env name s).1 = true := ensure_index_ok env name s h1 h2
  have hu1 : upsert_paper env paper name s
      = (true, write_doc (ensure_index env name s).2 name id (projectDoc paper id)) :=
    upsert_paper_ok env paper name s id het hid h3
  have hkeys : ∃ idx0, (ensure_index env name s).2 name = some idx0 ∧
      (idx0.docs.map Prod.fst).Nodup := by
    by_cases hs : ∃ idx, s name = some idx
    · obtain ⟨idx, hsi⟩ := hs
      rw [ensure_index_present env name s idx h1 hsi]
      exact ⟨idx, hsi, hnd idx hsi⟩
    · have hsn : s name = none := by
        cases hval : s name with
        | none => rfl
        | some v => exact absurd ⟨v, hval⟩ hs
      simp [ensure_index, h1, hsn, h2, create_index]
  obtain ⟨idx0, hidx0, hidx0nd⟩ := hkeys
  have hu1at : (upsert_paper env paper name s).2 name
      = some { schema := idx0.schema,
               docs := putDoc idx0.docs id (projectDoc paper id) } := by
    rw [hu1]
    simp [write_doc_at, hidx0]
  have hens2 : ensure_index env name (upsert_paper env paper name s).2
      = (true, (upsert_paper env paper name s).2) :=
    ensure_index_present env name _ _ h1 hu1at
  have het2 : (ensure_index env name (upsert_paper env paper name s).2).1 = true := by
    rw [hens2]
  have hu2 : upsert_paper env paper name (upsert_paper env paper name s).2
      = (true, write_doc (upsert_paper env paper name s).2 name id
          (projectDoc paper id)) := by
    have h := upsert_paper_ok env paper name (upsert_paper env paper name s).2 id
      het2 hid h3
    rw [hens2] at h
    exact h
  have hsame : write_doc (upsert_paper env paper name s).2 name id (projectDoc paper id)
      = (upsert_paper env paper name s).2 := by
    rw [hu1]
    exact write_doc_idem _ name id _
  refine ⟨by rw [hu1], by rw [hu2], ?_, ?_, ?_⟩
  · rw [hu2]
    simpa using hsame
  · exact ⟨_, hu1at, countKey_putDoc idx0.docs id _ hidx0nd⟩
  · rw [hu2]
    simp [hsame]

def c5Paper : PaperData :=
  { arxiv_id := some "2401.00001", title := some "T", full_text := some "body",
    summary := none, published_date := none, created_at := none,
    authors := none, categories := none }

/-- C5 witness: two identical upserts of a concrete paper into the empty
engine leave exactly one document with its id and an unchanged state. -/
theorem upsert_idempotent_witness :
    (upsert_paper { existsRaises := false, createRaises := false, opRaises := false }
      c5Paper get_index_name (fun _ => none)).1 = true ∧
    (upsert_paper { existsRaises := false, createRaises := false, opRaises := false }
      c5Paper get_index_name
      (upsert_paper { existsRaises := false, createRaises := false, opRaises := false }
        c5Paper get_index_name (fun _ => none)).2).2
      = (upsert_paper { existsRaises := false, createRaises := false, opRaises := false }
          c5Paper get_index_name (fun _ => none)).2 ∧
    (∃ idx, (upsert_paper { existsRaises := false, createRaises := false, opRaises := false }
        c5Paper get_index_name (fun _ => none)).2 get_index_name = some idx ∧
      countKey idx.docs "2401.00001" = 1) := by
  have h := upsert_idempotent
    { existsRaises := false, createRaises := false, opRaises := false }
    c5Paper get_index_name "2401.00001" (fun _ => none) rfl rfl rfl rfl
    (fun idx hidx => by simp at hidx)
  exact ⟨h.1, h.2.2.1, h.2.2.2.1⟩

/-! ## Durable store: the `Paper` model (models.py 12-57) and
`store_to_db_task` (ingestion_tasks.py 209-268)

`models.py` maps exactly the columns listed in `paperAttrs` — it defines
no `full_text` and no `sections_json` column — while `store_to_db_task`
passes both `full_text=` and `sections_json=` to the `Paper(...)`
constructor on the insert path and assigns both attributes on the update
path.  SQLAlchemy's declarative constructor raises `TypeError` on the
first keyword that is not an attribute of the model class, and that
exception is re-raised by the task's except handler. -/

/-- The mapped attributes of the `Paper` declarative model (its columns,
models.py 21-35). -/
def paperAttrs : List String :=
  ["id", "arxiv_id", "title", "summary", "pdf_path", "published_date", "created_at"]

/-- The keyword arguments passed to `Paper(...)` on the insert branch of
`store_to_db_task` (ingestion_tasks.py 250-260), in call order. -/
def insertKwargKeys : List String :=
  ["arxiv_id", "title", "summary", "pdf_path", "full_text", "sections_json",
   "published_date"]

/-- SQLAlchemy's declarative constructor: raises `TypeError` on the first
keyword that is not an attribute of the model class. -/
def declarativeCtorCheck (keys : List String) : Except String Unit :=
  match keys.find? (fun k => !(paperAttrs.contains k)) with
  | some k => .error (k ++ " is an invalid keyword argument for Paper")
  | none => .ok ()

/-- A row of the `papers` table: exactly the columns models.py maps. -/
structure PaperRow where
  arxiv_id : String
  title : String
  summary : Option String
  pdf_path : Option String
  published_date : String
  created_at : String
deriving DecidableEq, Repr

/-- Input dictionary of `store_to_db_task` (metadata plus parsed
content). -/
structure ParsedPaperData where
  arxiv_id : String
  title : String
  summary : Option String
  pdf_path : Option String
  full_text : Option String
  sections : List DocSection
  published_date : String
deriving DecidableEq, Repr

/-- `store_to_db_task`: if a row with the `arxiv_id` exists, assign the
attributes on the instance — only mapped columns are persisted, the
`full_text` / `sections_json` assignments touch no column — otherwise
construct `Paper(arxiv_id=..., title=..., summary=..., pdf_path=...,
full_text=..., sections_json=..., published_date=...)` and insert it;
the surrounding try/except re-raises any storage error. -/
def store_to_db_task (db : List PaperRow) (data : ParsedPaperData) (now : String) :
    Except String (Bool × List PaperRow) :=
  if db.any (fun r => r.arxiv_id == data.arxiv_id) then
    .ok (true, db.map (fun r =>
      if r.arxiv_id == data.arxiv_id then
        { r with title := data.title, summary := data.summary,
                 pdf_path := data.pdf_path, published_date := data.published_date }
      else r))
  else
    match declarativeCtorCheck insertKwargKeys with
    | .error e => .error e
    | .ok _ =>
        let row : PaperRow :=
          { arxiv_id := data.arxiv_id, title := data.title,
            summary := data.summary, pdf_path := data.pdf_path,
            published_date := data.published_date, created_at := now }
        .ok (true, db ++ [row])

/-- `session.query(Paper).filter_by(arxiv_id=...).first()`. -/
def find_by_external_id (db : List PaperRow) (aid : String) : Option PaperRow :=
  db.find? (fun r => r.arxiv_id == aid)

def c2Data : ParsedPaperData :=
  { arxiv_id := "2401.00001", title := "Quantum RAG", summary := some "s",
    pdf_path := some "data/raw/2401.00001.pdf", full_text := some "body text",
    sections := [{ type := "title", text := "Quantum RAG", level := 1 }],
    published_date := "2024-01-01T00:00:00" }

/-- C2 (code bug): persisting a new document with non-empty `full_text`
and `sections` into an empty store does not produce a row at all — the
`Paper(...)` construction fails on the `full_text` keyword because the
model maps neither `full_text` nor `sections_json`, so the write raises
and nothing can be read back, let alone equal the fields passed in. -/
theorem store_roundtrip_fails :
    store_to_db_task [] c2Data "2024-01-02T00:00:00"
      = .error "full_text is an invalid keyword argument for Paper" ∧
    paperAttrs.contains "full_text" = false ∧
    paperAttrs.contains "sections_json" = false ∧
    find_by_external_id [] "2401.00001" = none := by
  refine ⟨rfl, rfl, rfl, rfl⟩

/-! ## Concurrency ceiling: the download semaphore (ingest.py 37-45, 127)

`asyncio.Semaphore(max_concurrent)` guards the body of `_download_pdf`
(`async with self.semaphore:`).  The tasks of a batch are the
cache-missing downloads; each one acquires a permit — an acquire
transition is enabled only while the counter is positive, so a task
without a permit stays suspended in `waiting` — runs its GET in the
`downloading` phase, and releases the permit on exit.  `SemStep` is the
operational model of this discipline and `Reachable` the set of states
an execution of the batch can visit. -/

/-- The `max_concurrent` default of `IngestionEngine.__init__`. -/
def defaultMaxConcurrent : Nat := 5

inductive Phase where
  | waiting
  | downloading
  | done
deriving DecidableEq, Repr

structure SemState where
  permits : Nat
  tasks : List Phase
deriving DecidableEq, Repr

def countDownloading (ts : List Phase) : Nat :=
  (ts.filter (fun t => t == Phase.downloading)).length

def initState (c n : Nat) : SemState :=
  { permits := c, tasks := List.replicate n .waiting }

inductive SemStep : SemState → SemState → Prop where
  | acquire (s : SemState) (i : Nat) (hi : s.tasks[i]? = some .waiting)
      (hp : 0 < s.permits) :
      SemStep s { permits := s.permits - 1, tasks := s.tasks.set i .downloading }
  | release (s : SemState) (i : Nat) (hi : s.tasks[i]? = some .downloading) :
      SemStep s { permits := s.permits + 1, tasks := s.tasks.set i .done }

def Reachable (c n : Nat) (s : SemState) : Prop :=
  Relation.ReflTransGen SemStep (initState c n) s

theorem countDownloading_replicate (n : Nat) :
    countDownloading (List.replicate n .waiting) = 0 := by
  induction n with
  | zero => rfl
  | succ m ih =>
      unfold countDownloading at ih ⊢
      simp only [List.replicate_succ, List.filter_cons]
      simp [ih]

theorem countDownloading_set (ts : List Phase) (i : Nat) (a b : Phase)
    (h : ts[i]? = some a) :
    countDownloading (ts.set i b) + (if a = .downloading then 1 else 0)
      = countDownloading ts + (if b = .downloading then 1 else 0) := by
  induction ts generalizing i with
  | nil => simp at h
  | cons t ts ih =>
      cases i with
      | zero =>
          simp only [List.getElem?_cons_zero, Option.some.injEq] at h
          subst h
          unfold countDownloading
          simp only [List.set_cons_zero, List.filter_cons]
          by_cases ha : t = Phase.downloading <;> by_cases hb : b = Phase.downloading <;>
            simp [ha, hb]
      | succ j =>
          simp only [List.getElem?_cons_succ] at h
          have hrec := ih j h
          unfold countDownloading at hrec ⊢
          simp only [List.set_cons_succ, List.filter_cons]
          by_cases ht : t = Phase.downloading <;> simp [ht] <;> omega

theorem reachable_invariant (c n : Nat) (s : SemState) (h : Reachable c n s) :
    s.permits + countDownloading s.tasks = c := by
  induction h with
  | refl => simp [initState, countDownloading_replicate]
  | @tail b s2 hab hstep ih =>
      cases hstep with
      | acquire i hi hp =>
          have hc := countDownloading_set b.tasks i .waiting .downloading hi
          simp at hc
          show b.permits - 1 + countDownloading (b.tasks.set i .downloading) = c
          omega
      | release i hi =>
          have hc := countDownloading_set b.tasks i .downloading .done hi
          simp at hc
          show b.permits + 1 + countDownloading (b.tasks.set i .done) = c
          omega

/-- C7: in every state reachable by semaphore-disciplined downloads from
a batch of `n` tasks under ceiling `c`, the number of simultaneously
in-flight downloads never exceeds `c`; moreover available permits plus
in-flight downloads always equal `c`, so when the ceiling is reached no
permit is left and a further download (whose acquire transition requires
a positive counter) must stay suspended. -/
theorem semaphore_ceiling (c n : Nat) (s : SemState) (h : Reachable c n s) :
    countDownloading s.tasks ≤ c ∧
    s.permits + countDownloading s.tasks = c ∧
    (countDownloading s.tasks = c → s.permits = 0) := by
  have hinv := reachable_invariant c n s h
  exact ⟨by omega, hinv, by omega⟩

/-- C7 witness: the state after one task of a 2-task batch acquires one
of 5 permits and starts downloading. -/
theorem semaphore_ceiling_witness :
    countDownloading
        ({ permits := 4, tasks := [Phase.downloading, Phase.waiting] } : SemState).tasks
      ≤ 5 ∧
    ({ permits := 4, tasks := [Phase.downloading, Phase.waiting] } : SemState).permits
        + countDownloading
            ({ permits := 4,
               tasks := [Phase.downloading, Phase.waiting] } : SemState).tasks
      = 5 := by
  have hstep : SemStep (initState 5 2)
      { permits := 4, tasks := [Phase.downloading, Phase.waiting] } := by
    have h := SemStep.acquire (initState 5 2) 0 (by decide) (by decide)
    simpa [initState] using h
  have h := semaphore_ceiling 5 2 _ (Relation.ReflTransGen.single hstep)
  exact ⟨h.1, h.2.1⟩

/-! ## Retry decorator and `download_and_parse_task`
(ingestion_tasks.py 138-206)

The task is decorated with tenacity
`retry(stop=stop_after_attempt(3), wait=wait_exponential(multiplier=1,
min=4, max=10), reraise=True)`.  Its body, however, wraps everything from
the download through the parse in one try/except whose handler returns
the paper with empty content, so only code before the try — the
`paper['arxiv_id']` lookup — can raise out of the function and trigger
the decorator.  The per-attempt fetch outcome is an oracle
`fetch : Nat → FetchStep`; the parse step is total (see `parse_pdf`). -/

inductive FetchStep where
  | timeoutErr
  | connError
  | httpOk (status : Nat)
deriving DecidableEq, Repr

structure DlpEnv where
  pdfExists : Bool
  fetch : Nat → FetchStep
  parsed : ParsedContent

structure DlpPaper where
  arxiv_id : Option String
  title : String
deriving DecidableEq, Repr

structure DlpResult where
  arxiv_id : String
  pdf_path : Option String
  full_text : String
  sections : List DocSection
  parse_error : Option String
deriving DecidableEq, Repr

/-- tenacity `wait_exponential(multiplier, min, max)` at a 1-based
attempt number: `multiplier * 2 ^ attempt`, clamped into `[min, max]`
(jitter-free). -/
def wait_exponential (multiplier minW maxW attempt : Nat) : Nat :=
  Nat.max minW (Nat.min (multiplier * 2 ^ attempt) maxW)

structure RetryOutcome (A : Type) where
  result : Except String A
  attemptsUsed : Nat
  waits : List Nat

/-- The retry driver: `stop_after_attempt(3)` allows three calls,
`wait_exponential(multiplier=1, min=4, max=10)` sleeps between failed
attempts, and `reraise=True` re-raises the last error after the third
failure. -/
def retryCall {A : Type} (f : Nat → Except String A) : RetryOutcome A :=
  match f 1 with
  | .ok a => { result := .ok a, attemptsUsed := 1, waits := [] }
  | .error _ =>
      match f 2 with
      | .ok a =>
          { result := .ok a, attemptsUsed := 2, waits := [wait_exponential 1 4 10 1] }
      | .error _ =>
          match f 3 with
          | .ok a =>
              { result := .ok a, attemptsUsed := 3,
                waits := [wait_exponential 1 4 10 1, wait_exponential 1 4 10 2] }
          | .error e =>
              { result := .error e, attemptsUsed := 3,
                waits := [wait_exponential 1 4 10 1, wait_exponential 1 4 10 2] }

/-- `requests.Response.raise_for_status`: raises for 4xx/5xx statuses. -/
def raiseForStatus (status : Nat) : Except String Unit :=
  if 400 ≤ status ∧ status < 600 then .error ("HTTP " ++ toString status) else .ok ()

/-- The body of `download_and_parse_task` at one attempt: download if the
file is absent, parse, and merge; any exception inside the try — timeout,
connection error, `raise_for_status` — is caught and converted into the
degraded dictionary with empty `full_text`/`sections` and the error
string in the parse metadata.  Only a missing `arxiv_id` key raises out
of the function. -/
def download_and_parse_body (env : DlpEnv) (paper : DlpPaper) (attempt : Nat) :
    Except String DlpResult :=
  match paper.arxiv_id with
  | none => .error "KeyError: arxiv_id"
  | some aid =>
      let fetched : Except String Unit :=
        if env.pdfExists then .ok ()
        else
          match env.fetch attempt with
          | .timeoutErr => .error "Timeout"
          | .connError => .error "ConnectionError"
          | .httpOk status => raiseForStatus status
      match fetched with
      | .ok _ =>
          .ok { arxiv_id := aid, pdf_path := some ("data/raw/" ++ aid ++ ".pdf"),
                full_text := env.parsed.full_text, sections := env.parsed.sections,
                parse_error := env.parsed.metadata.error }
      | .error e =>
          .ok { arxiv_id := aid,
                pdf_path :=
                  if env.pdfExists then some ("data/raw/" ++ aid ++ ".pdf") else none,
                full_text := "", sections := [], parse_error := some e }

/-- The decorated task. -/
def download_and_parse_task (env : DlpEnv) (paper : DlpPaper) : RetryOutcome DlpResult :=
  retryCall (download_and_parse_body env paper)

def c8Env : DlpEnv :=
  { pdfExists := false, fetch := fun _ => .timeoutErr, parsed := empty_result }

def c8Paper : DlpPaper := { arxiv_id := some "2401.00002", title := "T" }

def c8PaperNoId : DlpPaper := { arxiv_id := none, title := "T" }

/-- C8 counterexample: with the fetch timing out on every attempt, the
task completes on the FIRST attempt with a successful degraded result —
no retry happens, no backoff wait is taken, and no error is re-raised —
because the body's catch-all converts the timeout into a normal return
before the retry decorator can see it. -/
theorem download_retry_never_fires :
    (download_and_parse_task c8Env c8Paper).attemptsUsed = 1 ∧
    (download_and_parse_task c8Env c8Paper).waits = [] ∧
    (download_and_parse_task c8Env c8Paper).result
      = .ok { arxiv_id := "2401.00002", pdf_path := none, full_text := "",
              sections := [], parse_error := some "Timeout" } := by
  refine ⟨rfl, rfl, rfl⟩

/-- C8 amended: a timeout or connection error during the download is
swallowed inside the task body, which returns the degraded result on the
first attempt with no retry, no wait and no re-raise; the decorator's
retry policy — 3 attempts, jitter-free exponential waits clamped into
[4s, 10s] (concretely 4s then 4s), original error re-raised after the
third failure — applies only to exceptions raised before the try block,
such as a descriptor missing the `arxiv_id` key. -/
theorem download_retry_amended (env : DlpEnv) (paper : DlpPaper) :
    (∀ aid, paper.arxiv_id = some aid → env.pdfExists = false →
      (∀ k, env.fetch k = .timeoutErr ∨ env.fetch k = .connError) →
      (download_and_parse_task env paper).attemptsUsed = 1 ∧
      (download_and_parse_task env paper).waits = [] ∧
      (∃ e, (download_and_parse_task env paper).result
          = .ok { arxiv_id := aid, pdf_path := none, full_text := "",
                  sections := [], parse_error := some e })) ∧
    (paper.arxiv_id = none →
      (download_and_parse_task env paper).result = .error "KeyError: arxiv_id" ∧
      (download_and_parse_task env paper).attemptsUsed = 3 ∧
      (download_and_parse_task env paper).waits = [4, 4]) ∧
    wait_exponential 1 4 10 1 = 4 ∧ wait_exponential 1 4 10 2 = 4 := by
  refine ⟨?_, ?_, by decide, by decide⟩
  · intro aid hid hpdf hfetch
    rcases hfetch 1 with h1 | h1
    · refine ⟨?_, ?_, "Timeout", ?_⟩ <;>
        simp [download_and_parse_task, retryCall, download_and_parse_body, hid, hpdf, h1]
    · refine ⟨?_, ?_, "ConnectionError", ?_⟩ <;>
        simp [download_and_parse_task, retryCall, download_and_parse_body, hid, hpdf, h1]
  · intro hid
    refine ⟨?_, ?_, ?_⟩ <;>
      simp [download_and_parse_task, retryCall, download_and_parse_body, hid,
        wait_exponential]

/-- C8 amended, witness: the theorem applied to the always-timing-out
fetch (degraded success on attempt 1) and to a descriptor missing its
`arxiv_id` (three attempts, waits 4s and 4s, error re-raised). -/
theorem download_retry_amended_witness :
    ((download_and_parse_task c8Env c8Paper).attemptsUsed = 1 ∧
      (download_and_parse_task c8Env c8Paper).waits = [] ∧
      (∃ e, (download_and_parse_task c8Env c8Paper).result
          = .ok { arxiv_id := "2401.00002", pdf_path := none, full_text := "",
                  sections := [], parse_error := some e })) ∧
    ((download_and_parse_task c8Env c8PaperNoId).result = .error "KeyError: arxiv_id" ∧
      (download_and_parse_task c8Env c8PaperNoId).attemptsUsed = 3 ∧
      (download_and_parse_task c8Env c8PaperNoId).waits = [4, 4]) := by
  constructor
  · exact (download_retry_amended c8Env c8Paper).1 "2401.00002" rfl rfl
      (fun k => Or.inl rfl)
  · exact (download_retry_amended c8Env c8PaperNoId).2.1 rfl

end QuantaRag
